import Mathlib

/-!
Shallow embedding of `src/session.rs` from actix-actorless-websockets.

The source defines a clonable `Session` handle around a tokio mpsc
`Sender<Message>` together with an `Arc<AtomicBool>` closed flag shared by
all clones.  We embed:

* the shared state of one handle family (the value of the shared flag, the
  liveness of the channel's receiver end, and the sequence of frames the
  consumer has received) as a `World`;
* one handle's own state (whether its `inner: Option<Sender<_>>` is
  populated) as a `Session`;
* each operation as a pure function returning the updated handle, the
  updated world and the `Result<(), Closed>` value; `close` consumes the
  handle and returns no `Session`;
* a step relation over configurations (world plus the multiset of live
  clones) covering every action the program and its environment can take:
  the four send operations, close, cloning, dropping a handle, and the
  external transport dropping the receiver.
-/

namespace ActixWS

/-- Close reason attached to a close frame: numeric code plus optional
description, mirroring `actix_http::ws::CloseReason`. -/
structure CloseReason where
  code : Nat
  description : Option String
deriving DecidableEq

/-- Outbound frames, mirroring the `actix_http::ws::Message` variants the
session constructs.  Byte payloads are lists of byte values. -/
inductive Message where
  | text (payload : String)
  | binary (payload : List Nat)
  | ping (payload : List Nat)
  | pong (payload : List Nat)
  | close (reason : Option CloseReason)
deriving DecidableEq

/-- The unit error `Closed` from the source: "Session is closed". -/
inductive Closed where
  | closed
deriving DecidableEq

/-- State shared by a whole handle family: the value of the
`Arc<AtomicBool>` closed flag, whether the channel's receiver end is still
alive, and the frames enqueued so far (what the consumer receives). -/
structure World where
  closed : Bool
  receiverAlive : Bool
  queue : List Message
deriving DecidableEq

/-- `Sender::send`: succeeds and enqueues the frame while the receiver is
alive; fails with `Closed` once the receiver has been dropped (the
`map_err(|_| Closed)` in every operation). -/
def World.push (w : World) (m : Message) : World × Except Closed Unit :=
  if w.receiverAlive then
    ({ w with queue := w.queue ++ [m] }, Except.ok ())
  else
    (w, Except.error Closed.closed)

/-- One handle's own state: whether `inner: Option<Sender<Message>>` is
populated.  All senders of one family address the same channel, so the
endpoint itself carries no data beyond its presence. -/
structure Session where
  inner : Option Unit
deriving DecidableEq

/-- `Session::new`: handle built around a fresh sender, `inner` populated. -/
def Session.new : Session := { inner := some () }

/-- The world of a freshly constructed handle family: flag initialized to
`false` (`AtomicBool::new(false)`), receiver alive, nothing enqueued. -/
def World.init : World := { closed := false, receiverAlive := true, queue := [] }

/-- `Session::pre_check`: if the shared flag reads true, drop the local
sender reference (`self.inner.take()`); otherwise leave the handle alone. -/
def Session.pre_check (s : Session) (w : World) : Session :=
  if w.closed then { s with inner := none } else s

/-- `Session::text`: pre-check, then push a text frame if the endpoint is
present, else fail with `Closed`. -/
def Session.text (s : Session) (w : World) (msg : String) :
    Session × World × Except Closed Unit :=
  let s' := s.pre_check w
  match s'.inner with
  | some _ => (s', w.push (Message.text msg))
  | none => (s', w, Except.error Closed.closed)

/-- `Session::binary`: pre-check, then push a binary frame if the endpoint
is present, else fail with `Closed`. -/
def Session.binary (s : Session) (w : World) (msg : List Nat) :
    Session × World × Except Closed Unit :=
  let s' := s.pre_check w
  match s'.inner with
  | some _ => (s', w.push (Message.binary msg))
  | none => (s', w, Except.error Closed.closed)

/-- `Session::ping`: pre-check, then push a ping frame carrying a copy of
the byte slice if the endpoint is present, else fail with `Closed`. -/
def Session.ping (s : Session) (w : World) (msg : List Nat) :
    Session × World × Except Closed Unit :=
  let s' := s.pre_check w
  match s'.inner with
  | some _ => (s', w.push (Message.ping msg))
  | none => (s', w, Except.error Closed.closed)

/-- `Session::pong`: pre-check, then push a pong frame carrying a copy of
the byte slice if the endpoint is present, else fail with `Closed`. -/
def Session.pong (s : Session) (w : World) (msg : List Nat) :
    Session × World × Except Closed Unit :=
  let s' := s.pre_check w
  match s'.inner with
  | some _ => (s', w.push (Message.pong msg))
  | none => (s', w, Except.error Closed.closed)

/-- `Session::close`: pre-check, take the endpoint; if it was present,
store `true` into the shared flag and then push the close frame; else fail
with `Closed`.  The handle is consumed: no `Session` is returned. -/
def Session.close (s : Session) (w : World) (reason : Option CloseReason) :
    World × Except Closed Unit :=
  let s' := s.pre_check w
  match s'.inner with
  | some _ => ({ w with closed := true }).push (Message.close reason)
  | none => (w, Except.error Closed.closed)

/-- A configuration of one handle family: the shared world and the list of
live clones. -/
structure Config where
  world : World
  sessions : List Session
deriving DecidableEq

/-- Every action the program and its environment can take on one handle
family: a send operation or close run by the clone at index `i`, cloning a
handle, dropping a handle, or the external transport dropping the
receiver end of the channel. -/
inductive Step : Config → Config → Prop where
  | text (c : Config) (i : Nat) (s : Session) (msg : String)
      (hs : c.sessions[i]? = some s) :
      Step c ⟨(s.text c.world msg).2.1, c.sessions.set i (s.text c.world msg).1⟩
  | binary (c : Config) (i : Nat) (s : Session) (msg : List Nat)
      (hs : c.sessions[i]? = some s) :
      Step c ⟨(s.binary c.world msg).2.1, c.sessions.set i (s.binary c.world msg).1⟩
  | ping (c : Config) (i : Nat) (s : Session) (msg : List Nat)
      (hs : c.sessions[i]? = some s) :
      Step c ⟨(s.ping c.world msg).2.1, c.sessions.set i (s.ping c.world msg).1⟩
  | pong (c : Config) (i : Nat) (s : Session) (msg : List Nat)
      (hs : c.sessions[i]? = some s) :
      Step c ⟨(s.pong c.world msg).2.1, c.sessions.set i (s.pong c.world msg).1⟩
  | close (c : Config) (i : Nat) (s : Session) (reason : Option CloseReason)
      (hs : c.sessions[i]? = some s) :
      Step c ⟨(s.close c.world reason).1, c.sessions.eraseIdx i⟩
  | clone (c : Config) (i : Nat) (s : Session)
      (hs : c.sessions[i]? = some s) :
      Step c ⟨c.world, c.sessions ++ [s]⟩
  | dropHandle (c : Config) (i : Nat) :
      Step c ⟨c.world, c.sessions.eraseIdx i⟩
  | dropReceiver (c : Config) :
      Step c ⟨{ c.world with receiverAlive := false }, c.sessions⟩

/-- The configuration right after construction: fresh world, one handle. -/
def initConfig : Config := { world := World.init, sessions := [Session.new] }

/-- A configuration is reachable when a finite sequence of steps leads to
it from the initial configuration. -/
def Reachable (c : Config) : Prop := Relation.ReflTransGen Step initConfig c

/-- Whether a frame is a close frame. -/
def Message.isCloseFrame : Message → Bool
  | Message.close _ => true
  | _ => false

/-! ### Per-operation lemmas -/

theorem pre_check_of_closed (s : Session) (w : World) (h : w.closed = true) :
    s.pre_check w = { s with inner := none } := by
  simp [Session.pre_check, h]

theorem pre_check_of_open (s : Session) (w : World) (h : w.closed = false) :
    s.pre_check w = s := by
  simp [Session.pre_check, h]

theorem text_of_closed (s : Session) (w : World) (msg : String)
    (h : w.closed = true) :
    s.text w msg = ({ inner := none }, w, Except.error Closed.closed) := by
  simp [Session.text, pre_check_of_closed s w h]

theorem binary_of_closed (s : Session) (w : World) (msg : List Nat)
    (h : w.closed = true) :
    s.binary w msg = ({ inner := none }, w, Except.error Closed.closed) := by
  simp [Session.binary, pre_check_of_closed s w h]

theorem ping_of_closed (s : Session) (w : World) (msg : List Nat)
    (h : w.closed = true) :
    s.ping w msg = ({ inner := none }, w, Except.error Closed.closed) := by
  simp [Session.ping, pre_check_of_closed s w h]

theorem pong_of_closed (s : Session) (w : World) (msg : List Nat)
    (h : w.closed = true) :
    s.pong w msg = ({ inner := none }, w, Except.error Closed.closed) := by
  simp [Session.pong, pre_check_of_closed s w h]

theorem close_of_closed (s : Session) (w : World) (reason : Option CloseReason)
    (h : w.closed = true) :
    s.close w reason = (w, Except.error Closed.closed) := by
  simp [Session.close, pre_check_of_closed s w h]

theorem push_closed (w : World) (m : Message) :
    ((w.push m).1).closed = w.closed := by
  unfold World.push
  split <;> rfl

theorem push_receiverAlive (w : World) (m : Message) :
    ((w.push m).1).receiverAlive = w.receiverAlive := by
  unfold World.push
  split <;> rfl

theorem text_world_closed (s : Session) (w : World) (msg : String) :
    ((s.text w msg).2.1).closed = w.closed := by
  rcases h : (s.pre_check w).inner with _ | u
  · simp [Session.text, h]
  · simp [Session.text, h, push_closed]

theorem binary_world_closed (s : Session) (w : World) (msg : List Nat) :
    ((s.binary w msg).2.1).closed = w.closed := by
  rcases h : (s.pre_check w).inner with _ | u
  · simp [Session.binary, h]
  · simp [Session.binary, h, push_closed]

theorem ping_world_closed (s : Session) (w : World) (msg : List Nat) :
    ((s.ping w msg).2.1).closed = w.closed := by
  rcases h : (s.pre_check w).inner with _ | u
  · simp [Session.ping, h]
  · simp [Session.ping, h, push_closed]

theorem pong_world_closed (s : Session) (w : World) (msg : List Nat) :
    ((s.pong w msg).2.1).closed = w.closed := by
  rcases h : (s.pre_check w).inner with _ | u
  · simp [Session.pong, h]
  · simp [Session.pong, h, push_closed]

theorem close_world_closed (s : Session) (w : World) (reason : Option CloseReason) :
    ((s.close w reason).1).closed = (w.closed || s.inner.isSome) := by
  rcases s with ⟨inner⟩
  rcases hcl : w.closed with _ | _
  · cases inner <;>
      simp [Session.close, pre_check_of_open _ _ hcl, push_closed, hcl]
  · cases inner <;>
      simp [Session.close, pre_check_of_closed _ _ hcl, hcl]

theorem text_of_dead (s : Session) (w : World) (msg : String)
    (h1 : w.closed = false) (h2 : w.receiverAlive = false) :
    s.text w msg = (s, w, Except.error Closed.closed) := by
  rcases s with ⟨_ | u⟩ <;>
    simp [Session.text, pre_check_of_open _ _ h1, World.push, h2]

theorem binary_of_dead (s : Session) (w : World) (msg : List Nat)
    (h1 : w.closed = false) (h2 : w.receiverAlive = false) :
    s.binary w msg = (s, w, Except.error Closed.closed) := by
  rcases s with ⟨_ | u⟩ <;>
    simp [Session.binary, pre_check_of_open _ _ h1, World.push, h2]

theorem ping_of_dead (s : Session) (w : World) (msg : List Nat)
    (h1 : w.closed = false) (h2 : w.receiverAlive = false) :
    s.ping w msg = (s, w, Except.error Closed.closed) := by
  rcases s with ⟨_ | u⟩ <;>
    simp [Session.ping, pre_check_of_open _ _ h1, World.push, h2]

theorem pong_of_dead (s : Session) (w : World) (msg : List Nat)
    (h1 : w.closed = false) (h2 : w.receiverAlive = false) :
    s.pong w msg = (s, w, Except.error Closed.closed) := by
  rcases s with ⟨_ | u⟩ <;>
    simp [Session.pong, pre_check_of_open _ _ h1, World.push, h2]

theorem text_of_live (s : Session) (w : World) (msg : String)
    (h1 : w.closed = false) (h2 : w.receiverAlive = true)
    (h3 : s.inner = some ()) :
    s.text w msg =
      (s, { w with queue := w.queue ++ [Message.text msg] }, Except.ok ()) := by
  rcases s with ⟨inner⟩
  cases inner
  · simp at h3
  · simp [Session.text, pre_check_of_open _ _ h1, World.push, h2]

theorem binary_of_live (s : Session) (w : World) (msg : List Nat)
    (h1 : w.closed = false) (h2 : w.receiverAlive = true)
    (h3 : s.inner = some ()) :
    s.binary w msg =
      (s, { w with queue := w.queue ++ [Message.binary msg] }, Except.ok ()) := by
  rcases s with ⟨inner⟩
  cases inner
  · simp at h3
  · simp [Session.binary, pre_check_of_open _ _ h1, World.push, h2]

theorem ping_of_live (s : Session) (w : World) (msg : List Nat)
    (h1 : w.closed = false) (h2 : w.receiverAlive = true)
    (h3 : s.inner = some ()) :
    s.ping w msg =
      (s, { w with queue := w.queue ++ [Message.ping msg] }, Except.ok ()) := by
  rcases s with ⟨inner⟩
  cases inner
  · simp at h3
  · simp [Session.ping, pre_check_of_open _ _ h1, World.push, h2]

theorem pong_of_live (s : Session) (w : World) (msg : List Nat)
    (h1 : w.closed = false) (h2 : w.receiverAlive = true)
    (h3 : s.inner = some ()) :
    s.pong w msg =
      (s, { w with queue := w.queue ++ [Message.pong msg] }, Except.ok ()) := by
  rcases s with ⟨inner⟩
  cases inner
  · simp at h3
  · simp [Session.pong, pre_check_of_open _ _ h1, World.push, h2]

theorem close_of_none_open (s : Session) (w : World) (reason : Option CloseReason)
    (h1 : w.closed = false) (h3 : s.inner = none) :
    s.close w reason = (w, Except.error Closed.closed) := by
  rcases s with ⟨inner⟩
  cases inner
  · simp [Session.close, pre_check_of_open _ _ h1]
  · simp at h3

theorem close_of_some_open (s : Session) (w : World) (reason : Option CloseReason)
    (h1 : w.closed = false) (h3 : s.inner = some ()) :
    s.close w reason = ({ w with closed := true }).push (Message.close reason) := by
  rcases s with ⟨inner⟩
  cases inner
  · simp at h3
  · simp [Session.close, pre_check_of_open _ _ h1]

theorem close_ok_shape (s : Session) (w : World) (reason : Option CloseReason)
    (h : (s.close w reason).2 = Except.ok ()) :
    w.closed = false ∧ w.receiverAlive = true ∧ s.inner = some () ∧
      (s.close w reason).1 =
        { closed := true, receiverAlive := w.receiverAlive,
          queue := w.queue ++ [Message.close reason] } := by
  rcases s with ⟨inner⟩
  rcases hcl : w.closed with _ | _
  · cases inner
    · rw [close_of_none_open _ _ _ hcl rfl] at h
      exact absurd h (by simp)
    · rcases hra : w.receiverAlive with _ | _
      · rw [close_of_some_open _ _ _ hcl rfl] at h
        simp [World.push, hra] at h
      · rw [close_of_some_open _ _ _ hcl rfl]
        simp [World.push, hra]
  · rw [close_of_closed _ _ _ hcl] at h
    exact absurd h (by simp)

theorem pre_check_inner_none_iff (s : Session) (w : World) :
    (s.pre_check w).inner = none ↔ (w.closed = true ∨ s.inner = none) := by
  rcases hcl : w.closed with _ | _
  · simp [pre_check_of_open _ _ hcl]
  · simp [pre_check_of_closed _ _ hcl]

theorem pre_check_of_none (s : Session) (w : World) (h : s.inner = none) :
    s.pre_check w = s := by
  rcases s with ⟨inner⟩
  cases inner
  · unfold Session.pre_check
    split <;> rfl
  · simp at h

theorem text_session (s : Session) (w : World) (msg : String) :
    (s.text w msg).1 = s.pre_check w := by
  rcases h : (s.pre_check w).inner with _ | u <;> simp [Session.text, h]

theorem binary_session (s : Session) (w : World) (msg : List Nat) :
    (s.binary w msg).1 = s.pre_check w := by
  rcases h : (s.pre_check w).inner with _ | u <;> simp [Session.binary, h]

theorem ping_session (s : Session) (w : World) (msg : List Nat) :
    (s.ping w msg).1 = s.pre_check w := by
  rcases h : (s.pre_check w).inner with _ | u <;> simp [Session.ping, h]

theorem pong_session (s : Session) (w : World) (msg : List Nat) :
    (s.pong w msg).1 = s.pre_check w := by
  rcases h : (s.pre_check w).inner with _ | u <;> simp [Session.pong, h]

theorem text_world_cases (s : Session) (w : World) (msg : String) :
    (s.text w msg).2.1 = w ∨
      (s.text w msg).2.1 = { w with queue := w.queue ++ [Message.text msg] } := by
  rcases h : (s.pre_check w).inner with _ | u
  · simp [Session.text, h]
  · rcases hra : w.receiverAlive with _ | _ <;>
      simp [Session.text, h, World.push, hra]

theorem binary_world_cases (s : Session) (w : World) (msg : List Nat) :
    (s.binary w msg).2.1 = w ∨
      (s.binary w msg).2.1 = { w with queue := w.queue ++ [Message.binary msg] } := by
  rcases h : (s.pre_check w).inner with _ | u
  · simp [Session.binary, h]
  · rcases hra : w.receiverAlive with _ | _ <;>
      simp [Session.binary, h, World.push, hra]

theorem ping_world_cases (s : Session) (w : World) (msg : List Nat) :
    (s.ping w msg).2.1 = w ∨
      (s.ping w msg).2.1 = { w with queue := w.queue ++ [Message.ping msg] } := by
  rcases h : (s.pre_check w).inner with _ | u
  · simp [Session.ping, h]
  · rcases hra : w.receiverAlive with _ | _ <;>
      simp [Session.ping, h, World.push, hra]

theorem pong_world_cases (s : Session) (w : World) (msg : List Nat) :
    (s.pong w msg).2.1 = w ∨
      (s.pong w msg).2.1 = { w with queue := w.queue ++ [Message.pong msg] } := by
  rcases h : (s.pre_check w).inner with _ | u
  · simp [Session.pong, h]
  · rcases hra : w.receiverAlive with _ | _ <;>
      simp [Session.pong, h, World.push, hra]

theorem close_world_cases (s : Session) (w : World) (reason : Option CloseReason) :
    (s.close w reason).1 = w ∨
      (s.close w reason).1 =
        { w with closed := true, queue := w.queue ++ [Message.close reason] } ∨
      (s.close w reason).1 = { w with closed := true } := by
  rcases h : (s.pre_check w).inner with _ | u
  · simp [Session.close, h]
  · rcases hra : w.receiverAlive with _ | _ <;>
      simp [Session.close, h, World.push, hra]

/-! ### Step-level lemmas -/

/-- Once the shared flag reads true, a step changes neither the flag nor
the queue: every operation short-circuits at the pre-check. -/
theorem step_of_closed {c c' : Config} (h : Step c c')
    (hcl : c.world.closed = true) :
    c'.world.closed = true ∧ c'.world.queue = c.world.queue := by
  cases h with
  | text i s msg hs =>
      rw [text_of_closed s c.world msg hcl]
      exact ⟨hcl, rfl⟩
  | binary i s msg hs =>
      rw [binary_of_closed s c.world msg hcl]
      exact ⟨hcl, rfl⟩
  | ping i s msg hs =>
      rw [ping_of_closed s c.world msg hcl]
      exact ⟨hcl, rfl⟩
  | pong i s msg hs =>
      rw [pong_of_closed s c.world msg hcl]
      exact ⟨hcl, rfl⟩
  | close i s reason hs =>
      rw [close_of_closed s c.world reason hcl]
      exact ⟨hcl, rfl⟩
  | clone i s hs => exact ⟨hcl, rfl⟩
  | dropHandle i => exact ⟨hcl, rfl⟩
  | dropReceiver => exact ⟨hcl, rfl⟩

/-- Along any run from a configuration whose flag is already true, the
flag stays true and the queue never changes. -/
theorem steps_of_closed {c c' : Config} (h : Relation.ReflTransGen Step c c')
    (hcl : c.world.closed = true) :
    c'.world.closed = true ∧ c'.world.queue = c.world.queue := by
  induction h with
  | refl => exact ⟨hcl, rfl⟩
  | tail hab hbc ih =>
      obtain ⟨h1, h2⟩ := ih
      obtain ⟨h1', h2'⟩ := step_of_closed hbc h1
      exact ⟨h1', h2'.trans h2⟩

/-- The invariant holding at every reachable configuration: a handle
whose endpoint is absent has observed the flag as true (so the flag is
still true), and while the flag reads false no close frame has ever been
enqueued. -/
def Inv (c : Config) : Prop :=
  (∀ s ∈ c.sessions, s.inner = none → c.world.closed = true) ∧
    (c.world.closed = false → ∀ m ∈ c.world.queue, m.isCloseFrame = false)

theorem inv_init : Inv initConfig := by
  constructor
  · intro s hs hnone
    simp [initConfig, Session.new] at hs
    rw [hs] at hnone
    simp at hnone
  · intro _ m hm
    simp [initConfig, World.init] at hm

theorem inv_step {c c' : Config} (hinv : Inv c) (h : Step c c') : Inv c' := by
  obtain ⟨hsess, hqueue⟩ := hinv
  rcases hcl : c.world.closed with _ | _
  · cases h with
    | text i s msg hs =>
        have hw := text_world_closed s c.world msg
        constructor
        · intro s0 hs0 hnone
          exfalso
          rcases List.mem_or_eq_of_mem_set hs0 with hmem | heq
          · rw [hsess s0 hmem hnone] at hcl
            cases hcl
          · rw [text_session, pre_check_of_open _ _ hcl] at heq
            rw [heq] at hnone
            rw [hsess s (List.getElem?_mem hs) hnone] at hcl
            cases hcl
        · intro _ m hm
          rcases text_world_cases s c.world msg with hwc | hwc <;> rw [hwc] at hm
          · exact hqueue hcl m hm
          · simp only [List.mem_append, List.mem_singleton] at hm
            rcases hm with hm | hm
            · exact hqueue hcl m hm
            · rw [hm]; rfl
    | binary i s msg hs =>
        constructor
        · intro s0 hs0 hnone
          exfalso
          rcases List.mem_or_eq_of_mem_set hs0 with hmem | heq
          · rw [hsess s0 hmem hnone] at hcl
            cases hcl
          · rw [binary_session, pre_check_of_open _ _ hcl] at heq
            rw [heq] at hnone
            rw [hsess s (List.getElem?_mem hs) hnone] at hcl
            cases hcl
        · intro _ m hm
          rcases binary_world_cases s c.world msg with hwc | hwc <;> rw [hwc] at hm
          · exact hqueue hcl m hm
          · simp only [List.mem_append, List.mem_singleton] at hm
            rcases hm with hm | hm
            · exact hqueue hcl m hm
            · rw [hm]; rfl
    | ping i s msg hs =>
        constructor
        · intro s0 hs0 hnone
          exfalso
          rcases List.mem_or_eq_of_mem_set hs0 with hmem | heq
          · rw [hsess s0 hmem hnone] at hcl
            cases hcl
          · rw [ping_session, pre_check_of_open _ _ hcl] at heq
            rw [heq] at hnone
            rw [hsess s (List.getElem?_mem hs) hnone] at hcl
            cases hcl
        · intro _ m hm
          rcases ping_world_cases s c.world msg with hwc | hwc <;> rw [hwc] at hm
          · exact hqueue hcl m hm
          · simp only [List.mem_append, List.mem_singleton] at hm
            rcases hm with hm | hm
            · exact hqueue hcl m hm
            · rw [hm]; rfl
    | pong i s msg hs =>
        constructor
        · intro s0 hs0 hnone
          exfalso
          rcases List.mem_or_eq_of_mem_set hs0 with hmem | heq
          · rw [hsess s0 hmem hnone] at hcl
            cases hcl
          · rw [pong_session, pre_check_of_open _ _ hcl] at heq
            rw [heq] at hnone
            rw [hsess s (List.getElem?_mem hs) hnone] at hcl
            cases hcl
        · intro _ m hm
          rcases pong_world_cases s c.world msg with hwc | hwc <;> rw [hwc] at hm
          · exact hqueue hcl m hm
          · simp only [List.mem_append, List.mem_singleton] at hm
            rcases hm with hm | hm
            · exact hqueue hcl m hm
            · rw [hm]; rfl
    | close i s reason hs =>
        rcases hsi : s.inner with _ | u
        · rw [close_of_none_open s c.world reason hcl hsi]
          constructor
          · intro s0 hs0 hnone
            exact hsess s0 (List.Sublist.mem hs0 (List.eraseIdx_sublist _ i)) hnone
          · exact fun _ m hm => hqueue hcl m hm
        · obtain ⟨⟩ := u
          have hcw := close_world_closed s c.world reason
          rw [hcl, hsi] at hcw
          simp only [Option.isSome_some, Bool.false_or] at hcw
          constructor
          · intro s0 _ _
            exact hcw
          · intro hfalse
            rw [hcw] at hfalse
            cases hfalse
    | clone i s hs =>
        constructor
        · intro s0 hs0 hnone
          simp only [List.mem_append, List.mem_singleton] at hs0
          rcases hs0 with hmem | heq
          · exact hsess s0 hmem hnone
          · subst heq
            exact hsess s0 (List.getElem?_mem hs) hnone
        · exact fun hf m hm => hqueue hf m hm
    | dropHandle i =>
        constructor
        · intro s0 hs0 hnone
          exact hsess s0 (List.Sublist.mem hs0 (List.eraseIdx_sublist _ i)) hnone
        · exact fun hf m hm => hqueue hf m hm
    | dropReceiver =>
        constructor
        · intro s0 hs0 hnone
          exact hsess s0 hs0 hnone
        · exact fun hf m hm => hqueue hf m hm
  · obtain ⟨h1, h2⟩ := step_of_closed h hcl
    constructor
    · intro s0 _ _
      exact h1
    · intro hfalse
      rw [h1] at hfalse
      cases hfalse

theorem reachable_inv {c : Config} (h : Reachable c) : Inv c := by
  induction h with
  | refl => exact inv_init
  | tail hab hbc ih => exact inv_step ih hbc

/-! ### Error characterization lemmas -/

theorem text_err_iff (s : Session) (w : World) (msg : String)
    (hinv : s.inner = none → w.closed = true) :
    (s.text w msg).2.2 = Except.error Closed.closed ↔
      (w.closed = true ∨ w.receiverAlive = false) := by
  rcases hcl : w.closed with _ | _
  · rcases hs : s.inner with _ | u
    · rw [hinv hs] at hcl
      cases hcl
    · obtain ⟨⟩ := u
      rcases hra : w.receiverAlive with _ | _
      · rw [text_of_dead s w msg hcl hra]
        simp [hra]
      · rw [text_of_live s w msg hcl hra hs]
        simp [hcl, hra]
  · rw [text_of_closed s w msg hcl]
    simp

theorem binary_err_iff (s : Session) (w : World) (msg : List Nat)
    (hinv : s.inner = none → w.closed = true) :
    (s.binary w msg).2.2 = Except.error Closed.closed ↔
      (w.closed = true ∨ w.receiverAlive = false) := by
  rcases hcl : w.closed with _ | _
  · rcases hs : s.inner with _ | u
    · rw [hinv hs] at hcl
      cases hcl
    · obtain ⟨⟩ := u
      rcases hra : w.receiverAlive with _ | _
      · rw [binary_of_dead s w msg hcl hra]
        simp [hra]
      · rw [binary_of_live s w msg hcl hra hs]
        simp [hcl, hra]
  · rw [binary_of_closed s w msg hcl]
    simp

theorem ping_err_iff (s : Session) (w : World) (msg : List Nat)
    (hinv : s.inner = none → w.closed = true) :
    (s.ping w msg).2.2 = Except.error Closed.closed ↔
      (w.closed = true ∨ w.receiverAlive = false) := by
  rcases hcl : w.closed with _ | _
  · rcases hs : s.inner with _ | u
    · rw [hinv hs] at hcl
      cases hcl
    · obtain ⟨⟩ := u
      rcases hra : w.receiverAlive with _ | _
      · rw [ping_of_dead s w msg hcl hra]
        simp [hra]
      · rw [ping_of_live s w msg hcl hra hs]
        simp [hcl, hra]
  · rw [ping_of_closed s w msg hcl]
    simp

theorem pong_err_iff (s : Session) (w : World) (msg : List Nat)
    (hinv : s.inner = none → w.closed = true) :
    (s.pong w msg).2.2 = Except.error Closed.closed ↔
      (w.closed = true ∨ w.receiverAlive = false) := by
  rcases hcl : w.closed with _ | _
  · rcases hs : s.inner with _ | u
    · rw [hinv hs] at hcl
      cases hcl
    · obtain ⟨⟩ := u
      rcases hra : w.receiverAlive with _ | _
      · rw [pong_of_dead s w msg hcl hra]
        simp [hra]
      · rw [pong_of_live s w msg hcl hra hs]
        simp [hcl, hra]
  · rw [pong_of_closed s w msg hcl]
    simp

theorem close_err_iff (s : Session) (w : World) (reason : Option CloseReason)
    (hinv : s.inner = none → w.closed = true) :
    (s.close w reason).2 = Except.error Closed.closed ↔
      (w.closed = true ∨ w.receiverAlive = false) := by
  rcases hcl : w.closed with _ | _
  · rcases hs : s.inner with _ | u
    · rw [hinv hs] at hcl
      cases hcl
    · obtain ⟨⟩ := u
      rw [close_of_some_open s w reason hcl hs]
      rcases hra : w.receiverAlive with _ | _ <;>
        simp [World.push, hcl, hra]
  · rw [close_of_closed s w reason hcl]
    simp

theorem result_shape (r : Except Closed Unit) :
    r = Except.ok () ∨ r = Except.error Closed.closed := by
  cases r with
  | error e =>
      cases e
      right
      rfl
  | ok u =>
      cases u
      left
      rfl

/-! ### Claim theorems -/

/-- Claim C6: in the sequential scenario, a handle H1 is constructed
around a fresh channel and cloned to H2 (the clone shares the world and is
the same handle value); H1.text "hello" returns Ok and the consumer
receives the frame Text "hello"; H1.close None returns Ok and the consumer
receives Close None; afterwards H2.text "late" returns Err Closed and
enqueues nothing. -/
theorem sequential_scenario_hello_close_late :
    (Session.new.text World.init "hello").2.2 = Except.ok () ∧
    ((Session.new.text World.init "hello").2.1).queue = [Message.text "hello"] ∧
    (((Session.new.text World.init "hello").1).close
        ((Session.new.text World.init "hello").2.1) none).2 = Except.ok () ∧
    ((((Session.new.text World.init "hello").1).close
        ((Session.new.text World.init "hello").2.1) none).1).queue
      = [Message.text "hello", Message.close none] ∧
    (Session.new.text
        ((((Session.new.text World.init "hello").1).close
            ((Session.new.text World.init "hello").2.1) none).1) "late").2.2
      = Except.error Closed.closed ∧
    ((Session.new.text
        ((((Session.new.text World.init "hello").1).close
            ((Session.new.text World.init "hello").2.1) none).1) "late").2.1).queue
      = [Message.text "hello", Message.close none] :=
  ⟨rfl, rfl, rfl, rfl, rfl, rfl⟩

/-- Claim C7: no operation of the handle panics: each of text, binary,
ping, pong, close and the internal pre-check is a total function on every
input, and every error path yields exactly the value Err Closed. -/
theorem ops_total_and_fail_only_with_closed :
    ∀ (s : Session) (w : World) (msg : String) (data : List Nat)
      (reason : Option CloseReason),
    ((s.text w msg).2.2 = Except.ok () ∨
      (s.text w msg).2.2 = Except.error Closed.closed) ∧
    ((s.binary w data).2.2 = Except.ok () ∨
      (s.binary w data).2.2 = Except.error Closed.closed) ∧
    ((s.ping w data).2.2 = Except.ok () ∨
      (s.ping w data).2.2 = Except.error Closed.closed) ∧
    ((s.pong w data).2.2 = Except.ok () ∨
      (s.pong w data).2.2 = Except.error Closed.closed) ∧
    ((s.close w reason).2 = Except.ok () ∨
      (s.close w reason).2 = Except.error Closed.closed) ∧
    (s.pre_check w = s ∨ s.pre_check w = { s with inner := none }) := by
  intro s w msg data reason
  refine ⟨result_shape _, result_shape _, result_shape _, result_shape _,
    result_shape _, ?_⟩
  unfold Session.pre_check
  split
  · right
    rfl
  · left
    rfl

/-- Claim C9: when close is called on a handle whose send endpoint is
present, the shared flag is stored true before the close-frame push is
attempted, so whatever close itself returns — in particular Err Closed
when the receiver is already gone — the flag is true afterwards and every
subsequent operation on every clone returns Err Closed. -/
theorem close_sets_flag_before_push (s : Session) (w : World)
    (reason : Option CloseReason) (h : s.inner = some ()) :
    ((s.close w reason).1).closed = true ∧
    (∀ (s' : Session) (msg : String),
      (s'.text ((s.close w reason).1) msg).2.2 = Except.error Closed.closed) ∧
    (∀ (s' : Session) (data : List Nat),
      (s'.binary ((s.close w reason).1) data).2.2 = Except.error Closed.closed) ∧
    (∀ (s' : Session) (data : List Nat),
      (s'.ping ((s.close w reason).1) data).2.2 = Except.error Closed.closed) ∧
    (∀ (s' : Session) (data : List Nat),
      (s'.pong ((s.close w reason).1) data).2.2 = Except.error Closed.closed) := by
  have hclosed : ((s.close w reason).1).closed = true := by
    rw [close_world_closed, h]
    simp
  refine ⟨hclosed, ?_, ?_, ?_, ?_⟩
  · intro s' msg
    rw [text_of_closed s' _ msg hclosed]
  · intro s' data
    rw [binary_of_closed s' _ data hclosed]
  · intro s' data
    rw [ping_of_closed s' _ data hclosed]
  · intro s' data
    rw [pong_of_closed s' _ data hclosed]

/-- Witness for C9 at a concrete input: a fresh handle, a world whose
receiver is already dropped; close itself fails with Closed, yet the flag
is true afterwards and a text on a clone fails. -/
theorem close_sets_flag_before_push_witness :
    (Session.new.close
        { closed := false, receiverAlive := false, queue := [] } none).2
      = Except.error Closed.closed ∧
    ((Session.new.close
        { closed := false, receiverAlive := false, queue := [] } none).1).closed
      = true ∧
    (Session.new.text
        (Session.new.close
          { closed := false, receiverAlive := false, queue := [] } none).1
        "late").2.2 = Except.error Closed.closed :=
  ⟨rfl,
   (close_sets_flag_before_push Session.new
     { closed := false, receiverAlive := false, queue := [] } none rfl).1,
   (close_sets_flag_before_push Session.new
     { closed := false, receiverAlive := false, queue := [] } none rfl).2.1
     Session.new "late"⟩

/-- Claim C10: when a send operation fails because the channel push failed
(receiver dropped) while the shared flag read false, the handle state and
the world are left exactly unchanged — the flag stays false and the
endpoint stays present — and a later call on the same handle attempts the
push again (here: succeeds against a live world) instead of
short-circuiting at the pre-check. -/
theorem push_failure_leaves_state_unchanged (s : Session) (w : World)
    (msg : String) (data : List Nat)
    (h1 : w.closed = false) (h2 : w.receiverAlive = false)
    (h3 : s.inner = some ()) :
    s.text w msg = (s, w, Except.error Closed.closed) ∧
    s.binary w data = (s, w, Except.error Closed.closed) ∧
    s.ping w data = (s, w, Except.error Closed.closed) ∧
    s.pong w data = (s, w, Except.error Closed.closed) ∧
    (∀ (w2 : World) (msg2 : String), w2.closed = false →
      w2.receiverAlive = true →
      ((s.text w msg).1).text w2 msg2
        = (s, { w2 with queue := w2.queue ++ [Message.text msg2] },
            Except.ok ())) := by
  refine ⟨text_of_dead s w msg h1 h2, binary_of_dead s w data h1 h2,
    ping_of_dead s w data h1 h2, pong_of_dead s w data h1 h2, ?_⟩
  intro w2 msg2 h4 h5
  rw [text_of_dead s w msg h1 h2]
  exact text_of_live s w2 msg2 h4 h5 h3

/-- Witness for C10 at a concrete input: fresh handle, open flag, dead
receiver; the failed text leaves handle and world unchanged, and the same
handle then succeeds against a live world. -/
theorem push_failure_leaves_state_unchanged_witness :
    Session.new.text { closed := false, receiverAlive := false, queue := [] } "x"
      = (Session.new,
          { closed := false, receiverAlive := false, queue := [] },
          Except.error Closed.closed) ∧
    ((Session.new.text
        { closed := false, receiverAlive := false, queue := [] } "x").1).text
        World.init "y"
      = (Session.new,
          { closed := false, receiverAlive := true, queue := [Message.text "y"] },
          Except.ok ()) :=
  ⟨(push_failure_leaves_state_unchanged Session.new
      { closed := false, receiverAlive := false, queue := [] } "x" []
      rfl rfl rfl).1,
   (push_failure_leaves_state_unchanged Session.new
      { closed := false, receiverAlive := false, queue := [] } "x" []
      rfl rfl rfl).2.2.2.2 World.init "y" rfl rfl⟩

/-- Claim C1: if close returns Ok on one clone of a handle family, then
every subsequent operation — text, binary, ping or pong — invoked on any
clone of that family, after any further interleaving of steps, returns
Err Closed. -/
theorem close_ok_poisons_all_clones (c : Config) (i : Nat) (s : Session)
    (_hi : c.sessions[i]? = some s) (reason : Option CloseReason)
    (hok : (s.close c.world reason).2 = Except.ok ())
    (c' : Config)
    (hr : Relation.ReflTransGen Step
      ⟨(s.close c.world reason).1, c.sessions.eraseIdx i⟩ c')
    (s' : Session) (_hs' : s' ∈ c'.sessions)
    (msg : String) (data : List Nat) :
    (s'.text c'.world msg).2.2 = Except.error Closed.closed ∧
    (s'.binary c'.world data).2.2 = Except.error Closed.closed ∧
    (s'.ping c'.world data).2.2 = Except.error Closed.closed ∧
    (s'.pong c'.world data).2.2 = Except.error Closed.closed := by
  obtain ⟨_, _, _, hshape⟩ := close_ok_shape s c.world reason hok
  have hstart : (Config.mk (s.close c.world reason).1
      (c.sessions.eraseIdx i)).world.closed = true := by
    rw [hshape]
  obtain ⟨hclosed, _⟩ := steps_of_closed hr hstart
  exact ⟨by rw [text_of_closed s' _ msg hclosed],
    by rw [binary_of_closed s' _ data hclosed],
    by rw [ping_of_closed s' _ data hclosed],
    by rw [pong_of_closed s' _ data hclosed]⟩

/-- Witness for C1 at a concrete input: two clones, close succeeds on the
first, and text, binary, ping, pong on the surviving clone all fail. -/
theorem close_ok_poisons_all_clones_witness :
    (Session.new.close World.init none).2 = Except.ok () ∧
    (Session.new.text (Session.new.close World.init none).1 "late").2.2
      = Except.error Closed.closed ∧
    (Session.new.binary (Session.new.close World.init none).1 [1]).2.2
      = Except.error Closed.closed ∧
    (Session.new.ping (Session.new.close World.init none).1 []).2.2
      = Except.error Closed.closed ∧
    (Session.new.pong (Session.new.close World.init none).1 []).2.2
      = Except.error Closed.closed := by
  have h := close_ok_poisons_all_clones
    ⟨World.init, [Session.new, Session.new]⟩ 0 Session.new rfl none rfl
    ⟨(Session.new.close World.init none).1,
      ([Session.new, Session.new].eraseIdx 0)⟩
    Relation.ReflTransGen.refl Session.new (by decide) "late" [1]
  exact ⟨rfl, h.1, h.2.1, h.2.2.1, h.2.2.2⟩

/-- Claim C2: on every reachable configuration, every operation (text,
binary, ping, pong, close) returns Err Closed exactly when the shared
closed flag reads true at pre-check time — equivalently, exactly when the
handle's endpoint is absent after the pre-check — or the push onto the
channel fails because the receiver has been dropped; in every other case
the operation returns Ok. -/
theorem op_err_iff_flag_or_receiver_gone (c : Config) (hc : Reachable c)
    (s : Session) (hs : s ∈ c.sessions)
    (msg : String) (data : List Nat) (reason : Option CloseReason) :
    ((s.pre_check c.world).inner = none ↔ c.world.closed = true) ∧
    ((s.text c.world msg).2.2 = Except.error Closed.closed ↔
      (c.world.closed = true ∨ c.world.receiverAlive = false)) ∧
    ((s.binary c.world data).2.2 = Except.error Closed.closed ↔
      (c.world.closed = true ∨ c.world.receiverAlive = false)) ∧
    ((s.ping c.world data).2.2 = Except.error Closed.closed ↔
      (c.world.closed = true ∨ c.world.receiverAlive = false)) ∧
    ((s.pong c.world data).2.2 = Except.error Closed.closed ↔
      (c.world.closed = true ∨ c.world.receiverAlive = false)) ∧
    ((s.close c.world reason).2 = Except.error Closed.closed ↔
      (c.world.closed = true ∨ c.world.receiverAlive = false)) ∧
    (c.world.closed = false → c.world.receiverAlive = true →
      (s.text c.world msg).2.2 = Except.ok () ∧
      (s.binary c.world data).2.2 = Except.ok () ∧
      (s.ping c.world data).2.2 = Except.ok () ∧
      (s.pong c.world data).2.2 = Except.ok () ∧
      (s.close c.world reason).2 = Except.ok ()) := by
  have hinv : s.inner = none → c.world.closed = true :=
    (reachable_inv hc).1 s hs
  have hsome : c.world.closed = false → s.inner = some () := by
    intro hcl
    rcases hsi : s.inner with _ | u
    · rw [hinv hsi] at hcl
      cases hcl
    · obtain ⟨⟩ := u
      rfl
  refine ⟨?_, text_err_iff s c.world msg hinv,
    binary_err_iff s c.world data hinv, ping_err_iff s c.world data hinv,
    pong_err_iff s c.world data hinv, close_err_iff s c.world reason hinv,
    ?_⟩
  · rw [pre_check_inner_none_iff]
    constructor
    · rintro (h | h)
      · exact h
      · exact hinv h
    · exact Or.inl
  · intro hcl hra
    have hsi := hsome hcl
    refine ⟨?_, ?_, ?_, ?_, ?_⟩
    · rw [text_of_live s c.world msg hcl hra hsi]
    · rw [binary_of_live s c.world data hcl hra hsi]
    · rw [ping_of_live s c.world data hcl hra hsi]
    · rw [pong_of_live s c.world data hcl hra hsi]
    · rw [close_of_some_open s c.world reason hcl hsi]
      simp [World.push, hra]

/-- Witness for C2 at the initial configuration: the endpoint is present
after pre-check, text does not fail, and with flag false and receiver
alive every operation returns Ok. -/
theorem op_err_iff_flag_or_receiver_gone_witness :
    ((Session.new.pre_check World.init).inner = none ↔
      World.init.closed = true) ∧
    ((Session.new.text World.init "hi").2.2 = Except.error Closed.closed ↔
      (World.init.closed = true ∨ World.init.receiverAlive = false)) ∧
    (Session.new.close World.init none).2 = Except.ok () :=
  ⟨(op_err_iff_flag_or_receiver_gone initConfig Relation.ReflTransGen.refl
      Session.new (by decide) "hi" [] none).1,
   (op_err_iff_flag_or_receiver_gone initConfig Relation.ReflTransGen.refl
      Session.new (by decide) "hi" [] none).2.1,
   (op_err_iff_flag_or_receiver_gone initConfig Relation.ReflTransGen.refl
      Session.new (by decide) "hi" [] none).2.2.2.2.2.2 rfl rfl |>.2.2.2.2⟩

/-- Claim C3: the shared closed flag starts false at construction; text,
binary, ping and pong never write it; close's only effect on it is the
single false-to-true transition taken when the closing clone still holds
its endpoint; and no step of the system ever resets it from true to
false. -/
theorem flag_monotone_only_close_writes :
    World.init.closed = false ∧
    (∀ (s : Session) (w : World) (msg : String),
      ((s.text w msg).2.1).closed = w.closed) ∧
    (∀ (s : Session) (w : World) (data : List Nat),
      ((s.binary w data).2.1).closed = w.closed) ∧
    (∀ (s : Session) (w : World) (data : List Nat),
      ((s.ping w data).2.1).closed = w.closed) ∧
    (∀ (s : Session) (w : World) (data : List Nat),
      ((s.pong w data).2.1).closed = w.closed) ∧
    (∀ (s : Session) (w : World) (reason : Option CloseReason),
      ((s.close w reason).1).closed = (w.closed || s.inner.isSome)) ∧
    (∀ (c c' : Config), Step c c' → c.world.closed = true →
      c'.world.closed = true) :=
  ⟨rfl, text_world_closed, binary_world_closed, ping_world_closed,
   pong_world_closed, close_world_closed,
   fun _ _ h hcl => (step_of_closed h hcl).1⟩

/-- Witness for C3 at concrete inputs: a text on the fresh world leaves
the flag false, a close on the fresh handle flips it to true, and a step
(the transport dropping the receiver) from a closed world keeps it true. -/
theorem flag_monotone_only_close_writes_witness :
    ((Session.new.text World.init "x").2.1).closed = World.init.closed ∧
    ((Session.new.close World.init none).1).closed
      = (World.init.closed || Session.new.inner.isSome) ∧
    ({ closed := true, receiverAlive := false, queue := ([] : List Message) }
        : World).closed = true :=
  ⟨flag_monotone_only_close_writes.2.1 Session.new World.init "x",
   flag_monotone_only_close_writes.2.2.2.2.2.1 Session.new World.init none,
   flag_monotone_only_close_writes.2.2.2.2.2.2
     ⟨{ closed := true, receiverAlive := true, queue := [] }, [Session.new]⟩
     ⟨{ closed := true, receiverAlive := false, queue := [] }, [Session.new]⟩
     (Step.dropReceiver
       ⟨{ closed := true, receiverAlive := true, queue := [] }, [Session.new]⟩)
     rfl⟩

/-- Claim C4: in every reachable configuration, a handle whose endpoint is
absent has the shared flag true; the pre-check clears the endpoint exactly
when the flag is true or it was already absent; and once absent the
endpoint is never repopulated by any operation. -/
theorem endpoint_absent_implies_flag_closed :
    (∀ (c : Config), Reachable c → ∀ s ∈ c.sessions,
      s.inner = none → c.world.closed = true) ∧
    (∀ (s : Session) (w : World),
      (s.pre_check w).inner = none ↔ (w.closed = true ∨ s.inner = none)) ∧
    (∀ (s : Session) (w : World), s.inner = none →
      (s.pre_check w).inner = none) ∧
    (∀ (s : Session) (w : World) (msg : String), s.inner = none →
      ((s.text w msg).1).inner = none) ∧
    (∀ (s : Session) (w : World) (data : List Nat), s.inner = none →
      ((s.binary w data).1).inner = none) ∧
    (∀ (s : Session) (w : World) (data : List Nat), s.inner = none →
      ((s.ping w data).1).inner = none) ∧
    (∀ (s : Session) (w : World) (data : List Nat), s.inner = none →
      ((s.pong w data).1).inner = none) := by
  refine ⟨fun c hc => (reachable_inv hc).1, pre_check_inner_none_iff,
    ?_, ?_, ?_, ?_, ?_⟩
  · intro s w h
    rw [pre_check_of_none s w h]
    exact h
  · intro s w msg h
    rw [text_session, pre_check_of_none s w h]
    exact h
  · intro s w data h
    rw [binary_session, pre_check_of_none s w h]
    exact h
  · intro s w data h
    rw [ping_session, pre_check_of_none s w h]
    exact h
  · intro s w data h
    rw [pong_session, pre_check_of_none s w h]
    exact h

/-- Witness for C4: a reachable configuration — clone, close on the first
clone, then a text on the survivor — reaching a handle with an absent
endpoint and flag true; plus a concrete never-repopulated instance. -/
theorem endpoint_absent_implies_flag_closed_witness :
    ({ closed := true, receiverAlive := true,
        queue := [Message.close none] } : World).closed = true ∧
    (((⟨none⟩ : Session).text World.init "x").1).inner = none :=
  ⟨endpoint_absent_implies_flag_closed.1
     ⟨{ closed := true, receiverAlive := true,
        queue := [Message.close none] }, [⟨none⟩]⟩
     (Relation.ReflTransGen.tail
       (Relation.ReflTransGen.tail
         (Relation.ReflTransGen.tail Relation.ReflTransGen.refl
           (Step.clone initConfig 0 Session.new rfl))
         (Step.close ⟨World.init, [Session.new, Session.new]⟩ 0
           Session.new none rfl))
       (Step.text ⟨(Session.new.close World.init none).1,
           ([Session.new, Session.new].eraseIdx 0)⟩ 0
         Session.new "x" rfl))
     ⟨none⟩ (by decide) rfl,
   endpoint_absent_implies_flag_closed.2.2.2.1 ⟨none⟩ World.init "x" rfl⟩

/-- Claim C5: when close with Some reason returns Ok on a clone of a
reachable configuration, the consumer receives exactly one close frame —
the queue is extended by precisely Close (some reason), and it is the only
close frame in the whole queue — and no frame of any kind is ever enqueued
by any clone of the family afterwards. -/
theorem close_reason_delivered_exactly_once (c : Config) (hc : Reachable c)
    (i : Nat) (s : Session) (_hi : c.sessions[i]? = some s)
    (reason : CloseReason)
    (hok : (s.close c.world (some reason)).2 = Except.ok ()) :
    ((s.close c.world (some reason)).1).queue
      = c.world.queue ++ [Message.close (some reason)] ∧
    (((s.close c.world (some reason)).1).queue.filter Message.isCloseFrame)
      = [Message.close (some reason)] ∧
    (∀ (c' : Config), Relation.ReflTransGen Step
        ⟨(s.close c.world (some reason)).1, c.sessions.eraseIdx i⟩ c' →
      c'.world.queue = ((s.close c.world (some reason)).1).queue) := by
  obtain ⟨hcl, _, _, hshape⟩ := close_ok_shape s c.world (some reason) hok
  have hqueue : ((s.close c.world (some reason)).1).queue
      = c.world.queue ++ [Message.close (some reason)] := by
    rw [hshape]
  have hnoclose : c.world.queue.filter Message.isCloseFrame = [] := by
    rw [List.filter_eq_nil_iff]
    intro m hm
    rw [(reachable_inv hc).2 hcl m hm]
    simp
  refine ⟨hqueue, ?_, ?_⟩
  · rw [hqueue, List.filter_append, hnoclose]
    rfl
  · intro c' hr
    have hstart : (Config.mk (s.close c.world (some reason)).1
        (c.sessions.eraseIdx i)).world.closed = true := by
      rw [hshape]
    exact (steps_of_closed hr hstart).2

/-- Witness for C5 at a concrete input: closing the fresh handle family
with reason code 1000, description "bye". -/
theorem close_reason_delivered_exactly_once_witness :
    (Session.new.close World.init
        (some ⟨1000, some "bye"⟩)).2 = Except.ok () ∧
    ((Session.new.close World.init (some ⟨1000, some "bye"⟩)).1).queue
      = [Message.close (some ⟨1000, some "bye"⟩)] ∧
    (((Session.new.close World.init
        (some ⟨1000, some "bye"⟩)).1).queue.filter Message.isCloseFrame)
      = [Message.close (some ⟨1000, some "bye"⟩)] :=
  ⟨rfl,
   (close_reason_delivered_exactly_once initConfig
      Relation.ReflTransGen.refl 0 Session.new rfl ⟨1000, some "bye"⟩ rfl).1,
   (close_reason_delivered_exactly_once initConfig
      Relation.ReflTransGen.refl 0 Session.new rfl ⟨1000, some "bye"⟩ rfl).2.1⟩

end ActixWS
